import Mathlib

/-!
Shallow embedding of the `someday` repository's GPU resource and
shader-reflection subsystem (`src/buffer.rs`, `src/render/shaders.rs`).

Conventions of the embedding:
* Rust panics (`unwrap`, `panic!`, `unimplemented!`) become `Except`
  errors carrying the error taxonomy of the specification
  (`DoubleFree`, `BufferNotMapped`, `MalformedSamplerSpec`,
  `UnsupportedDescriptorType`), or an `err` field when a partial trace
  of device calls before the panic matters.
* Device/allocator collaborators are modelled by explicit parameters
  (mapped memory as `Nat → Nat`, handles as `Nat`) and by traces of
  `GpuEvent`s where the order of device calls is the property at stake.
* Rust `&str` names are modelled as `List Char` (all protocol strings
  are ASCII, so byte indexing and char indexing agree).
* `BTreeMap` values are modelled as association lists (`List (k × v)`),
  looked up with `List.lookup`.
-/

namespace Someday

/-- Error taxonomy for the buffer/image resources (spec section 7). -/
inductive ResourceError
  | DoubleFree
  | BufferNotMapped
  | OffsetOutOfBounds
deriving DecidableEq

/-- Memory locations of `gpu_allocator::MemoryLocation`. -/
inductive MemoryLocation
  | GpuOnly
  | CpuToGpu
  | GpuToCpu
  | Unknown
deriving DecidableEq

/-- Buffer usage flags of `vk::BufferUsageFlags` (the subset that matters
here; the flag set is modelled as a `List` of flags, `contains` as
membership and `|=` as appending the missing flag). -/
inductive BufferUsageFlag
  | SHADER_DEVICE_ADDRESS
  | TRANSFER_SRC
  | TRANSFER_DST
  | UNIFORM_BUFFER
  | STORAGE_BUFFER
  | VERTEX_BUFFER
  | INDEX_BUFFER
deriving DecidableEq

/-- The fields of `vk::BufferCreateInfo` read by `Buffer::new`. -/
structure BufferCreateInfo where
  size : Nat
  usage : List BufferUsageFlag
deriving DecidableEq

/-- The fields of `gpu_allocator::AllocationCreateDesc` filled in by
`Buffer::new` (the `requirements` come from the device and are not
modelled). -/
structure AllocationCreateDesc where
  name : List Char
  location : MemoryLocation
  linear : Bool
deriving DecidableEq

/-- `Buffer` of `src/buffer.rs`. The `Allocation` is modelled by its
persistently mapped memory, a total function from byte index to byte
value; `allocation = none` after `destroy`. -/
structure Buffer where
  allocation : Option (Nat → Nat)
  size : Nat
  device_addr : Nat
  has_been_written_to : Bool

/-- Result of `Buffer::new`: the constructed buffer together with the
(cloned, possibly modified) create-info actually passed to
`create_buffer` and the allocation request passed to the allocator. -/
structure BufferNewResult where
  buffer : Buffer
  used_info : BufferCreateInfo
  alloc_desc : AllocationCreateDesc

/-- `Buffer::new` (`src/buffer.rs` lines 18–68). The device collaborator
is modelled by the `mapped` memory the allocator hands back and the
`device_addr` the device reports. The source clones `buffer_info` and
ORs in `SHADER_DEVICE_ADDRESS` when the clone does not contain it. -/
def Buffer.new (buffer_info : BufferCreateInfo) (location : MemoryLocation)
    (mapped : Nat → Nat) (device_addr : Nat) : BufferNewResult :=
  let size := buffer_info.size
  let used :=
    if ¬ (BufferUsageFlag.SHADER_DEVICE_ADDRESS ∈ buffer_info.usage) then
      { buffer_info with
        usage := buffer_info.usage ++ [BufferUsageFlag.SHADER_DEVICE_ADDRESS] }
    else
      buffer_info
  { buffer :=
      { allocation := some mapped
        size := size
        device_addr := device_addr
        has_been_written_to := false }
    used_info := used
    alloc_desc :=
      { name := ['b', 'u', 'f', 'f', 'e', 'r']
        location := location
        linear := true } }

/-- `Buffer::destroy` (`src/buffer.rs` lines 70–73):
`allocator.free(self.allocation.take().unwrap())` panics when the
allocation was already taken — modelled as `DoubleFree`. -/
def Buffer.destroy (b : Buffer) : Except ResourceError Buffer :=
  match b.allocation with
  | none => Except.error ResourceError.DoubleFree
  | some _ => Except.ok { b with allocation := none }

/-- Overwrite `data.length` bytes of `mem` starting at `offset`
(the semantics of the raw `copy_from_slice` into the mapped pointer). -/
def writeMem (mem : Nat → Nat) (offset : Nat) (data : List Nat) : Nat → Nat :=
  fun i =>
    if offset ≤ i ∧ i < offset + data.length then data.getD (i - offset) 0
    else mem i

/-- `Buffer::copy_from_slice` (`src/buffer.rs` lines 75–91), with the
slice element type instantiated at bytes. The source's bounds assertion
(line 82, `size_of_val(slice) + offset <= size`) is commented out, so
the copy is performed with no bounds check against `size`; the only
failure is the panic when the allocation is gone (`BufferNotMapped`). -/
def Buffer.copy_from_slice (b : Buffer) (slice : List Nat) (offset : Nat) :
    Except ResourceError Buffer :=
  match b.allocation with
  | none => Except.error ResourceError.BufferNotMapped
  | some mem =>
      Except.ok
        { b with
          allocation := some (writeMem mem offset slice)
          has_been_written_to := true }

/-- Device calls issued by `Image::create_view` / `Image::destroy`, in
call order; view and image handles are modelled as `Nat`. -/
inductive GpuEvent
  | CreateImageView (v : Nat)
  | DestroyImageView (v : Nat)
  | FreeAllocation
  | DestroyImage
deriving DecidableEq

/-- Image formats of `vk::Format` (opaque to the claims; a `Nat` code). -/
structure Format where
  code : Nat
deriving DecidableEq

/-- `Image` of `src/buffer.rs`. The image handle is a `Nat`; the
`Allocation` carries no mapped pointer that the image code uses, so it
is modelled as `Option Unit`. -/
structure Image where
  image : Nat
  allocation : Option Unit
  view : Option Nat
  format : Format
deriving DecidableEq

/-- `Image::create_view` (`src/buffer.rs` lines 135–162): the device
returns a fresh view handle `v`; the source stores it in `self.view`
(overwriting whatever was there, destroying nothing) and returns it.
The trace of device calls is `[CreateImageView v]`. -/
def Image.create_view (img : Image) (v : Nat) : Image × Nat × List GpuEvent :=
  ({ img with view := some v }, v, [GpuEvent.CreateImageView v])

/-- Result of `Image::destroy`: `err = some DoubleFree` models the
panic on `allocation.take().unwrap()`; `events` is the trace of device
calls issued before returning or panicking. -/
structure DestroyResult where
  err : Option ResourceError
  img : Image
  events : List GpuEvent
deriving DecidableEq

/-- `Image::destroy` (`src/buffer.rs` lines 164–170): destroys the view
first when present, then frees the allocation (panicking when it was
already taken — the view destruction has happened by then), then
destroys the image handle. -/
def Image.destroy (img : Image) : DestroyResult :=
  let viewEvents : List GpuEvent :=
    match img.view with
    | some v => [GpuEvent.DestroyImageView v]
    | none => []
  let img1 : Image := { img with view := none }
  match img.allocation with
  | none => { err := some ResourceError.DoubleFree, img := img1, events := viewEvents }
  | some _ =>
      { err := none
        img := { img1 with allocation := none }
        events := viewEvents ++ [GpuEvent.FreeAllocation, GpuEvent.DestroyImage] }

/-! Shader reflection and descriptor set layouts, `src/render/shaders.rs`. -/

/-- Error taxonomy for the layout builder (spec section 7); the source
panics at these points, the panics are classified by the taxonomy. -/
inductive ShaderError
  | MalformedSamplerSpec
  | UnsupportedDescriptorType
deriving DecidableEq

/-- Descriptor types of `rspirv_reflect::DescriptorType` that the builder
can encounter (the reflected side). `OTHER` stands for any reflected
kind not matched by a named arm of the source's outer `match`, which
hits `unimplemented!`. -/
inductive ReflDescriptorType
  | UNIFORM_BUFFER
  | UNIFORM_BUFFER_DYNAMIC
  | UNIFORM_TEXEL_BUFFER
  | STORAGE_IMAGE
  | STORAGE_BUFFER
  | STORAGE_BUFFER_DYNAMIC
  | SAMPLED_IMAGE
  | SAMPLER
  | ACCELERATION_STRUCTURE_KHR
  | OTHER
deriving DecidableEq

/-- Descriptor types of `vk::DescriptorType` produced by the builder. -/
inductive DescriptorType
  | UNIFORM_BUFFER
  | UNIFORM_BUFFER_DYNAMIC
  | UNIFORM_TEXEL_BUFFER
  | STORAGE_IMAGE
  | STORAGE_BUFFER
  | STORAGE_BUFFER_DYNAMIC
  | SAMPLED_IMAGE
  | SAMPLER
  | ACCELERATION_STRUCTURE_KHR
deriving DecidableEq

/-- `rspirv_reflect::DescriptorInfo`: reflected kind plus declared name. -/
structure DescriptorInfo where
  ty : ReflDescriptorType
  name : List Char
deriving DecidableEq

/-- `vk::Filter` values used by the sampler mini-protocol. -/
inductive Filter
  | NEAREST
  | LINEAR
deriving DecidableEq

/-- `vk::SamplerMipmapMode` values used by the sampler mini-protocol. -/
inductive SamplerMipmapMode
  | NEAREST
  | LINEAR
deriving DecidableEq

/-- `vk::SamplerAddressMode` values used by the sampler mini-protocol. -/
inductive SamplerAddressMode
  | REPEAT
  | MIRRORED_REPEAT
  | CLAMP_TO_EDGE
  | CLAMP_TO_BORDER
deriving DecidableEq

/-- `SamplerDesc` of `crate::ctx`: the key the sampler registry memoizes
on; the immutable sampler handle is identified with its `SamplerDesc`. -/
structure SamplerDesc where
  texel_filter : Filter
  mipmap_mode : SamplerMipmapMode
  address_modes : SamplerAddressMode
deriving DecidableEq

/-- The characters of the `"sampler_"` name tag. -/
def samplerTag : List Char := ['s', 'a', 'm', 'p', 'l', 'e', 'r', '_']

/-- `binding.name.strip_prefix("sampler_")` of the source: when the name
starts with the tag, the remainder; otherwise `none` (the source then
panics — `MalformedSamplerSpec`). -/
def stripSamplerTag (name : List Char) : Option (List Char) :=
  if name.take 8 = samplerTag then some (name.drop 8) else none

/-- First sampler-spec character: `"n" => NEAREST, "l" => LINEAR`,
anything else panics in the source. -/
def parseTexelFilter (c : Char) : Option Filter :=
  if c = 'n' then some Filter.NEAREST
  else if c = 'l' then some Filter.LINEAR
  else none

/-- Second sampler-spec character: `"n" => NEAREST, "l" => LINEAR`,
anything else panics in the source. -/
def parseMipmapMode (c : Char) : Option SamplerMipmapMode :=
  if c = 'n' then some SamplerMipmapMode.NEAREST
  else if c = 'l' then some SamplerMipmapMode.LINEAR
  else none

/-- Remaining sampler-spec characters:
`"r" | "mr" | "c" | "cb"`, anything else panics in the source. -/
def parseAddressModes (spec : List Char) : Option SamplerAddressMode :=
  if spec = ['r'] then some SamplerAddressMode.REPEAT
  else if spec = ['m', 'r'] then some SamplerAddressMode.MIRRORED_REPEAT
  else if spec = ['c'] then some SamplerAddressMode.CLAMP_TO_EDGE
  else if spec = ['c', 'b'] then some SamplerAddressMode.CLAMP_TO_BORDER
  else none

/-- The sampler-name parse of `src/render/shaders.rs` lines 215–258:
strip `"sampler_"`, read one filter character, one mipmap character,
and the remaining characters as the address mode. A spec shorter than
two characters makes the source's byte-slicing panic, so it is a
failure here as well. -/
def parseSamplerName (name : List Char) : Option SamplerDesc :=
  match stripSamplerTag name with
  | some (f :: m :: rest) =>
      match parseTexelFilter f with
      | some tf =>
          match parseMipmapMode m with
          | some mm =>
              match parseAddressModes rest with
              | some am =>
                  some { texel_filter := tf, mipmap_mode := mm, address_modes := am }
              | none => none
          | none => none
      | none => none
  | _ => none

/-- Modelled from the spec (section 6): the grammar's filter codes,
`n = nearest, l = linear`. -/
def filterChar : Filter → Char
  | Filter.NEAREST => 'n'
  | Filter.LINEAR => 'l'

/-- Modelled from the spec (section 6): the grammar's mipmap codes,
`n = nearest, l = linear`. -/
def mipmapChar : SamplerMipmapMode → Char
  | SamplerMipmapMode.NEAREST => 'n'
  | SamplerMipmapMode.LINEAR => 'l'

/-- Modelled from the spec (section 6): the grammar's address codes,
`r = repeat, mr = mirrored-repeat, c = clamp-to-edge,
cb = clamp-to-border`. -/
def addressChars : SamplerAddressMode → List Char
  | SamplerAddressMode.REPEAT => ['r']
  | SamplerAddressMode.MIRRORED_REPEAT => ['m', 'r']
  | SamplerAddressMode.CLAMP_TO_EDGE => ['c']
  | SamplerAddressMode.CLAMP_TO_BORDER => ['c', 'b']

/-- Modelled from the spec (section 6, testable properties): the
canonical name `sampler_<filter><mipmap><address>` of a sampler
configuration, used to state that `parseSamplerName` accepts exactly
the grammar. -/
def samplerNameOf (d : SamplerDesc) : List Char :=
  samplerTag ++ filterChar d.texel_filter :: mipmapChar d.mipmap_mode
    :: addressChars d.address_modes

/-- `name.ends_with("_dyn")` of the source, on char lists: the last four
characters are `_dyn`. -/
def endsWithDyn (name : List Char) : Bool :=
  decide (4 ≤ name.length ∧ name.drop (name.length - 4) = ['_', 'd', 'y', 'n'])

/-- `vk::ShaderStageFlags`; the builder always uses `ALL`. -/
inductive ShaderStageFlags
  | ALL
  | VERTEX
  | FRAGMENT
  | COMPUTE
deriving DecidableEq

/-- Binding flags of `vk::DescriptorBindingFlags`; the builder assigns
`PARTIALLY_BOUND` to every binding (the bindless branch that would use
the others is commented out in the source). -/
inductive DescriptorBindingFlags
  | PARTIALLY_BOUND
  | UPDATE_AFTER_BIND
  | UPDATE_UNUSED_WHILE_PENDING
  | VARIABLE_DESCRIPTOR_COUNT
deriving DecidableEq

/-- The fields of `vk::DescriptorSetLayoutBinding` the builder fills. -/
structure DescriptorSetLayoutBinding where
  binding : Nat
  descriptor_count : Nat
  descriptor_type : DescriptorType
  stage_flags : ShaderStageFlags
  immutable_samplers : List SamplerDesc
deriving DecidableEq

/-- The inner `match binding.ty` of `src/render/shaders.rs` lines
155–179, reached only for the buffer/image family of reflected types;
a reflected `STORAGE_BUFFER` whose name ends in `_dyn` is reclassified
as `STORAGE_BUFFER_DYNAMIC`. The source's inner `_` arm is
unreachable from the outer match; it is given an arbitrary value. -/
def bufferFamilyVkType (info : DescriptorInfo) : DescriptorType :=
  match info.ty with
  | ReflDescriptorType.UNIFORM_BUFFER => DescriptorType.UNIFORM_BUFFER
  | ReflDescriptorType.UNIFORM_BUFFER_DYNAMIC => DescriptorType.UNIFORM_BUFFER_DYNAMIC
  | ReflDescriptorType.UNIFORM_TEXEL_BUFFER => DescriptorType.UNIFORM_TEXEL_BUFFER
  | ReflDescriptorType.STORAGE_IMAGE => DescriptorType.STORAGE_IMAGE
  | ReflDescriptorType.STORAGE_BUFFER =>
      if endsWithDyn info.name then DescriptorType.STORAGE_BUFFER_DYNAMIC
      else DescriptorType.STORAGE_BUFFER
  | ReflDescriptorType.STORAGE_BUFFER_DYNAMIC => DescriptorType.STORAGE_BUFFER_DYNAMIC
  | _ => DescriptorType.UNIFORM_BUFFER

/-- One iteration of the `for (binding_index, binding) in set.iter()`
loop of `create_descriptor_set_layouts` (lines 144–270): the
`DescriptorSetLayoutBinding` pushed for this binding, or the error the
source panics with. -/
def translateBinding (binding_index : Nat) (info : DescriptorInfo) :
    Except ShaderError DescriptorSetLayoutBinding :=
  match info.ty with
  | ReflDescriptorType.UNIFORM_BUFFER
  | ReflDescriptorType.UNIFORM_TEXEL_BUFFER
  | ReflDescriptorType.STORAGE_IMAGE
  | ReflDescriptorType.STORAGE_BUFFER
  | ReflDescriptorType.STORAGE_BUFFER_DYNAMIC =>
      Except.ok
        { binding := binding_index
          descriptor_count := 1
          descriptor_type := bufferFamilyVkType info
          stage_flags := ShaderStageFlags.ALL
          immutable_samplers := [] }
  | ReflDescriptorType.SAMPLED_IMAGE =>
      Except.ok
        { binding := binding_index
          descriptor_count := 1
          descriptor_type := DescriptorType.SAMPLED_IMAGE
          stage_flags := ShaderStageFlags.ALL
          immutable_samplers := [] }
  | ReflDescriptorType.SAMPLER =>
      match parseSamplerName info.name with
      | some d =>
          Except.ok
            { binding := binding_index
              descriptor_count := 1
              descriptor_type := DescriptorType.SAMPLER
              stage_flags := ShaderStageFlags.ALL
              immutable_samplers := [d] }
      | none => Except.error ShaderError.MalformedSamplerSpec
  | ReflDescriptorType.ACCELERATION_STRUCTURE_KHR =>
      Except.ok
        { binding := binding_index
          descriptor_count := 1
          descriptor_type := DescriptorType.ACCELERATION_STRUCTURE_KHR
          stage_flags := ShaderStageFlags.ALL
          immutable_samplers := [] }
  | _ => Except.error ShaderError.UnsupportedDescriptorType

/-- One reflected descriptor set: `BTreeMap<u32, DescriptorInfo>` as an
association list from binding index to info. -/
abbrev DescriptorSetRefl : Type := List (Nat × DescriptorInfo)

/-- `StageDescriptorSetLayouts`: `BTreeMap<u32, DescriptorSetLayout>` as
an association list from set index to the set's bindings. -/
abbrev StageDescriptorSetLayouts : Type := List (Nat × DescriptorSetRefl)

/-- The `vk::DescriptorSetLayout` object as the builder creates it:
its create flags (only `UPDATE_AFTER_BIND_POOL` could ever be set, and
the branch that would set it is commented out), its bindings, and the
parallel binding-flags array. -/
structure DescriptorSetLayout where
  update_after_bind_pool : Bool
  bindings : List DescriptorSetLayoutBinding
  binding_flags : List DescriptorBindingFlags
deriving DecidableEq

/-- The layout made from `DescriptorSetLayoutCreateInfo::default()` for
a set index with no reflected bindings. -/
def defaultSetLayout : DescriptorSetLayout :=
  { update_after_bind_pool := false, bindings := [], binding_flags := [] }

/-- The binding loop over one reflected set, in iteration order;
stops at the first panic as the source does. -/
def buildBindings : DescriptorSetRefl → Except ShaderError (List DescriptorSetLayoutBinding)
  | [] => Except.ok []
  | (i, info) :: rest =>
      match translateBinding i info with
      | Except.error e => Except.error e
      | Except.ok b =>
          match buildBindings rest with
          | Except.error e => Except.error e
          | Except.ok bs => Except.ok (b :: bs)

/-- The body of the `for set_index in 0..set_count` loop: the layout and
the type map pushed for `set_index`. A missing set yields the default
(empty) layout and an empty type map. -/
def buildSet (refl : StageDescriptorSetLayouts) (set_index : Nat) :
    Except ShaderError (DescriptorSetLayout × List (Nat × DescriptorType)) :=
  match refl.lookup set_index with
  | some set =>
      match buildBindings set with
      | Except.error e => Except.error e
      | Except.ok bs =>
          Except.ok
            ( { update_after_bind_pool := false
                bindings := bs
                binding_flags :=
                  List.replicate set.length DescriptorBindingFlags.PARTIALLY_BOUND }
            , bs.map (fun b => (b.binding, b.descriptor_type)) )
  | none => Except.ok (defaultSetLayout, [])

/-- The loop over `0..set_count`, accumulating the two output vectors. -/
def buildSets (refl : StageDescriptorSetLayouts) :
    List Nat →
    Except ShaderError (List DescriptorSetLayout × List (List (Nat × DescriptorType)))
  | [] => Except.ok ([], [])
  | i :: rest =>
      match buildSet refl i with
      | Except.error e => Except.error e
      | Except.ok lm =>
          match buildSets refl rest with
          | Except.error e => Except.error e
          | Except.ok (ls, ms) => Except.ok (lm.1 :: ls, lm.2 :: ms)

/-- `set_count` of `create_descriptor_set_layouts` lines 121–126:
`keys().map(|k| k + 1).max().unwrap_or(0)`. -/
def setCount (refl : StageDescriptorSetLayouts) : Nat :=
  (refl.map (fun p => p.1 + 1)).foldr max 0

/-- `Shader::create_descriptor_set_layouts` (lines 113–313): the ordered
layouts and the parallel type maps, or the error the source panics
with. -/
def create_descriptor_set_layouts (refl : StageDescriptorSetLayouts) :
    Except ShaderError (List DescriptorSetLayout × List (List (Nat × DescriptorType))) :=
  buildSets refl (List.range (setCount refl))

/-- `vk::DescriptorPoolSize`. -/
structure DescriptorPoolSize where
  ty : DescriptorType
  descriptor_count : Nat
deriving DecidableEq

/-- One iteration of the pool-size aggregation
(`create_descriptor_sets` lines 67–79): find the entry for `ty` and
bump its count, or push a fresh entry with count 1 at the end. -/
def addPoolEntry : List DescriptorPoolSize → DescriptorType → List DescriptorPoolSize
  | [], ty => [{ ty := ty, descriptor_count := 1 }]
  | s :: rest, ty =>
      if s.ty = ty then { ty := s.ty, descriptor_count := s.descriptor_count + 1 } :: rest
      else s :: addPoolEntry rest ty

/-- All descriptor types occurring in the supplied type maps, one
occurrence per binding, in iteration order. -/
def allTypes (set_layout_info : List (List (Nat × DescriptorType))) : List DescriptorType :=
  (set_layout_info.map (fun m => m.map Prod.snd)).flatten

/-- Number of occurrences of `ty` across all type maps. -/
def occCount (ty : DescriptorType) (set_layout_info : List (List (Nat × DescriptorType))) : Nat :=
  ((allTypes set_layout_info).filter (fun t => decide (t = ty))).length

/-- The nested aggregation loop of `create_descriptor_sets`
(lines 66–79). -/
def computePoolSizes (set_layout_info : List (List (Nat × DescriptorType))) :
    List DescriptorPoolSize :=
  set_layout_info.foldl
    (fun acc bindings => bindings.foldl (fun a p => addPoolEntry a p.2) acc) []

/-- Total descriptor count a pool-size list attributes to `ty`: the sum
of the counts of its entries for `ty` (a deduplicated list has at most
one such entry). Used to analyse the aggregation loop. -/
def tyTotal (sizes : List DescriptorPoolSize) (ty : DescriptorType) : Nat :=
  ((sizes.filter (fun s => decide (s.ty = ty))).map
    DescriptorPoolSize.descriptor_count).sum

/-- The fields of `vk::DescriptorPoolCreateInfo` that
`create_descriptor_sets` sets (lines 81–83). -/
structure DescriptorPoolCreateInfo where
  pool_sizes : List DescriptorPoolSize
  max_sets : Nat
deriving DecidableEq

/-- A descriptor set allocated from the pool, identified by the layout
it was allocated for. -/
structure DescriptorSet where
  layout : DescriptorSetLayout
deriving DecidableEq

/-- `Shader::create_descriptor_sets` (lines 60–103): the pool create
info and the sets allocated from the pool, one per supplied layout. -/
def create_descriptor_sets (descriptor_set_layouts : List DescriptorSetLayout)
    (set_layout_info : List (List (Nat × DescriptorType))) :
    DescriptorPoolCreateInfo × List DescriptorSet :=
  let pool_sizes := computePoolSizes set_layout_info
  ( { pool_sizes := pool_sizes, max_sets := 1 }
  , descriptor_set_layouts.map (fun l => { layout := l }) )

/-- A concrete reflected shader used as witness input: one storage
buffer at binding 0 of set 2, sets 0 and 1 unused. -/
def reflExample : StageDescriptorSetLayouts :=
  [(2, [(0, ⟨ReflDescriptorType.STORAGE_BUFFER, ['a']⟩)])]

/-- The builder's output on `reflExample`. -/
def outExample : List DescriptorSetLayout × List (List (Nat × DescriptorType)) :=
  ( [ defaultSetLayout, defaultSetLayout
    , ⟨false, [⟨0, 1, DescriptorType.STORAGE_BUFFER, ShaderStageFlags.ALL, []⟩],
        [DescriptorBindingFlags.PARTIALLY_BOUND]⟩ ]
  , [[], [], [(0, DescriptorType.STORAGE_BUFFER)]] )

/-! Claims about `src/buffer.rs`. -/

/-- C1: the claim requires every write with `byteOffset + length > size`
to fail with `OffsetOutOfBounds` leaving the mapped memory unmodified,
but the source's bounds assertion is commented out
(`src/buffer.rs` line 82): at a buffer of size 4, copying the 8 bytes
`[1..8]` at offset 0 succeeds instead of failing, marks the buffer
written, and stores the byte 8 at mapped index 7 — past the buffer's
size. -/
theorem copy_unchecked_overrun_eval :
    0 + ([1, 2, 3, 4, 5, 6, 7, 8] : List Nat).length > 4
    ∧ ∃ b',
        Buffer.copy_from_slice
            { allocation := some (fun _ => 0), size := 4, device_addr := 0
              has_been_written_to := false }
            [1, 2, 3, 4, 5, 6, 7, 8] 0 = Except.ok b'
        ∧ b'.has_been_written_to = true
        ∧ b'.size = 4
        ∧ ∃ mem', b'.allocation = some mem' ∧ mem' 7 = 8 ∧ mem' 3 = 4 := by
  refine ⟨by norm_num, ⟨_, rfl, rfl, rfl, _, rfl, ?_, ?_⟩⟩ <;> decide

/-- C5: after a completed first `destroy`, a second `destroy` of the
same `ResourceBuffer`/`ResourceImage` fails with `DoubleFree` (the
`Allocation` was relinquished by the first call) rather than silently
succeeding. -/
theorem destroy_twice_double_free :
    (∀ (b b' : Buffer), Buffer.destroy b = Except.ok b' →
        Buffer.destroy b' = Except.error ResourceError.DoubleFree)
    ∧ (∀ img : Image, (Image.destroy img).err = none →
        (Image.destroy (Image.destroy img).img).err = some ResourceError.DoubleFree) := by
  constructor
  · intro b b' h
    cases hb : b.allocation with
    | none => simp [Buffer.destroy, hb] at h
    | some mem =>
        simp [Buffer.destroy, hb] at h
        rw [← h]
        rfl
  · intro img h
    cases ha : img.allocation with
    | none => simp [Image.destroy, ha] at h
    | some u => cases hv : img.view <;> simp [Image.destroy, ha, hv]

/-- Witness for C5 at a concrete buffer. -/
theorem destroy_twice_double_free_witness :
    Buffer.destroy
        { allocation := none, size := 4, device_addr := 0, has_been_written_to := false }
      = Except.error ResourceError.DoubleFree :=
  destroy_twice_double_free.1
    { allocation := some (fun _ => 0), size := 4, device_addr := 0
      has_been_written_to := false }
    { allocation := none, size := 4, device_addr := 0, has_been_written_to := false }
    rfl

/-- C7: `Image::destroy` issues its device calls in the order: destroy
the view when one is present, then free the `Allocation`, then destroy
the image handle; in every trace it emits, no view destruction follows
the image destruction. -/
theorem image_destroy_order (img : Image) :
    (∀ v, img.view = some v → img.allocation = some () →
        (Image.destroy img).events =
          [GpuEvent.DestroyImageView v, GpuEvent.FreeAllocation, GpuEvent.DestroyImage])
    ∧ (img.view = none → img.allocation = some () →
        (Image.destroy img).events = [GpuEvent.FreeAllocation, GpuEvent.DestroyImage])
    ∧ (∀ l1 l2 v, (Image.destroy img).events = l1 ++ GpuEvent.DestroyImage :: l2 →
        GpuEvent.DestroyImageView v ∉ l2) := by
  refine ⟨?_, ?_, ?_⟩
  · intro v hv ha
    simp [Image.destroy, hv, ha]
  · intro hv ha
    simp [Image.destroy, hv, ha]
  · intro l1 l2 v h
    cases ha : img.allocation <;> cases hv : img.view <;>
      simp [Image.destroy, ha, hv] at h <;>
      rcases l1 with _ | ⟨a, _ | ⟨b, _ | ⟨c, l1⟩⟩⟩ <;> simp_all

/-- Witness for C7 at a concrete image with a view. -/
theorem image_destroy_order_witness :
    (Image.destroy { image := 5, allocation := some (), view := some 9
                     format := { code := 0 } }).events =
      [GpuEvent.DestroyImageView 9, GpuEvent.FreeAllocation, GpuEvent.DestroyImage] :=
  (image_destroy_order
    { image := 5, allocation := some (), view := some 9, format := { code := 0 } }).1
    9 rfl rfl

/-- C8: the create-info actually used by `Buffer::new` contains the
`SHADER_DEVICE_ADDRESS` usage flag — added when absent, the caller's
description used unchanged when present — and the allocation request is
tagged `linear = true`. -/
theorem buffer_new_device_address_linear (info : BufferCreateInfo)
    (loc : MemoryLocation) (mapped : Nat → Nat) (addr : Nat) :
    BufferUsageFlag.SHADER_DEVICE_ADDRESS ∈ (Buffer.new info loc mapped addr).used_info.usage
    ∧ (BufferUsageFlag.SHADER_DEVICE_ADDRESS ∈ info.usage →
        (Buffer.new info loc mapped addr).used_info = info)
    ∧ (BufferUsageFlag.SHADER_DEVICE_ADDRESS ∉ info.usage →
        (Buffer.new info loc mapped addr).used_info.usage
          = info.usage ++ [BufferUsageFlag.SHADER_DEVICE_ADDRESS])
    ∧ (Buffer.new info loc mapped addr).alloc_desc.linear = true
    ∧ (Buffer.new info loc mapped addr).buffer.size = info.size := by
  by_cases h : BufferUsageFlag.SHADER_DEVICE_ADDRESS ∈ info.usage <;>
    simp [Buffer.new, h]

/-- Witness for C8 at a concrete description lacking the flag. -/
theorem buffer_new_device_address_linear_witness :
    (Buffer.new { size := 16, usage := [BufferUsageFlag.VERTEX_BUFFER] }
        MemoryLocation.CpuToGpu (fun _ => 0) 7).used_info.usage
      = [BufferUsageFlag.VERTEX_BUFFER] ++ [BufferUsageFlag.SHADER_DEVICE_ADDRESS] :=
  (buffer_new_device_address_linear
    { size := 16, usage := [BufferUsageFlag.VERTEX_BUFFER] }
    MemoryLocation.CpuToGpu (fun _ => 0) 7).2.2.1 (by decide)

/-- C10: a second `create_view` stores the new handle over the old one
without destroying it: after creating views `v1` then `v2`, the stored
view is `v2`, the `create_view` traces contain only view creations, a
later `destroy` destroys view `v2`, and `DestroyImageView v1` never
occurs anywhere in the combined trace. -/
theorem create_view_replace_no_destroy (img : Image) (v1 v2 : Nat)
    (halloc : img.allocation = some ()) (hne : v1 ≠ v2) :
    let s1 := Image.create_view img v1
    let s2 := Image.create_view s1.1 v2
    let d := Image.destroy s2.1
    s2.1.view = some v2
    ∧ s1.2.2 = [GpuEvent.CreateImageView v1]
    ∧ s2.2.2 = [GpuEvent.CreateImageView v2]
    ∧ GpuEvent.DestroyImageView v2 ∈ d.events
    ∧ GpuEvent.DestroyImageView v1 ∉ s1.2.2 ++ s2.2.2 ++ d.events := by
  simp [Image.create_view, Image.destroy, halloc, hne]

/-- Witness for C10 at a concrete image and distinct view handles. -/
theorem create_view_replace_no_destroy_witness :
    let s1 := Image.create_view
      { image := 1, allocation := some (), view := none, format := { code := 0 } } 4
    let s2 := Image.create_view s1.1 5
    let d := Image.destroy s2.1
    s2.1.view = some 5
    ∧ s1.2.2 = [GpuEvent.CreateImageView 4]
    ∧ s2.2.2 = [GpuEvent.CreateImageView 5]
    ∧ GpuEvent.DestroyImageView 5 ∈ d.events
    ∧ GpuEvent.DestroyImageView 4 ∉ s1.2.2 ++ s2.2.2 ++ d.events :=
  create_view_replace_no_destroy
    { image := 1, allocation := some (), view := none, format := { code := 0 } }
    4 5 rfl (by decide)

/-! Claims about `src/render/shaders.rs`. -/

/-- C3: a reflected storage-buffer binding resolves to the dynamic
storage-buffer type exactly when its declared name ends in `_dyn`; a
storage-buffer binding without the suffix always resolves to the plain
storage-buffer type. -/
theorem storage_buffer_dyn_iff (i : Nat) (info : DescriptorInfo)
    (hty : info.ty = ReflDescriptorType.STORAGE_BUFFER)
    (b : DescriptorSetLayoutBinding)
    (h : translateBinding i info = Except.ok b) :
    (b.descriptor_type = DescriptorType.STORAGE_BUFFER_DYNAMIC
      ↔ endsWithDyn info.name = true)
    ∧ (endsWithDyn info.name = false →
        b.descriptor_type = DescriptorType.STORAGE_BUFFER) := by
  rcases info with ⟨ty, name⟩
  cases hty
  simp only [translateBinding, bufferFamilyVkType] at h
  injection h with h
  subst h
  cases hd : endsWithDyn name <;> simp [hd]

/-- Witness for C3 at a concrete binding named `foo_dyn`. -/
theorem storage_buffer_dyn_iff_witness :
    ((⟨0, 1, DescriptorType.STORAGE_BUFFER_DYNAMIC, ShaderStageFlags.ALL, []⟩ :
        DescriptorSetLayoutBinding).descriptor_type
          = DescriptorType.STORAGE_BUFFER_DYNAMIC
      ↔ endsWithDyn ['f', 'o', 'o', '_', 'd', 'y', 'n'] = true)
    ∧ (endsWithDyn ['f', 'o', 'o', '_', 'd', 'y', 'n'] = false →
        (⟨0, 1, DescriptorType.STORAGE_BUFFER_DYNAMIC, ShaderStageFlags.ALL, []⟩ :
          DescriptorSetLayoutBinding).descriptor_type
            = DescriptorType.STORAGE_BUFFER) :=
  storage_buffer_dyn_iff 0
    ⟨ReflDescriptorType.STORAGE_BUFFER, ['f', 'o', 'o', '_', 'd', 'y', 'n']⟩ rfl
    ⟨0, 1, DescriptorType.STORAGE_BUFFER_DYNAMIC, ShaderStageFlags.ALL, []⟩ rfl

/-- Every binding the translation accepts carries a descriptor count of
one and is positioned at its reflected binding index. -/
theorem translateBinding_ok_shape (i : Nat) (info : DescriptorInfo)
    (b : DescriptorSetLayoutBinding) (h : translateBinding i info = Except.ok b) :
    b.descriptor_count = 1 ∧ b.binding = i := by
  rcases info with ⟨ty, name⟩
  cases ty
  case SAMPLER =>
    simp only [translateBinding] at h
    cases hp : parseSamplerName name <;> rw [hp] at h <;> cases h <;> exact ⟨rfl, rfl⟩
  all_goals simp only [translateBinding] at h
  all_goals cases h <;> exact ⟨rfl, rfl⟩

/-- On success, the binding loop yields one layout binding per reflected
binding. -/
theorem buildBindings_ok_length (set : DescriptorSetRefl)
    (bs : List DescriptorSetLayoutBinding) (h : buildBindings set = Except.ok bs) :
    bs.length = set.length := by
  induction set generalizing bs with
  | nil =>
      simp only [buildBindings] at h
      injection h with h
      subst h
      rfl
  | cons p rest ih =>
      rcases p with ⟨i, info⟩
      simp only [buildBindings] at h
      cases ht : translateBinding i info <;> rw [ht] at h
      · cases h
      · cases hr : buildBindings rest <;> rw [hr] at h
        · cases h
        · injection h with h
          subst h
          simp [ih _ hr]

/-- Every layout binding the loop produces comes from translating one
reflected binding. -/
theorem buildBindings_mem (set : DescriptorSetRefl)
    (bs : List DescriptorSetLayoutBinding) (h : buildBindings set = Except.ok bs) :
    ∀ b ∈ bs, ∃ p ∈ set, translateBinding p.1 p.2 = Except.ok b := by
  induction set generalizing bs with
  | nil =>
      simp only [buildBindings] at h
      injection h with h
      subst h
      intro b hb
      cases hb
  | cons p rest ih =>
      rcases p with ⟨i, info⟩
      simp only [buildBindings] at h
      cases ht : translateBinding i info <;> rw [ht] at h
      · cases h
      · cases hr : buildBindings rest <;> rw [hr] at h
        · cases h
        · injection h with h
          subst h
          intro b hb
          rcases List.mem_cons.mp hb with hb | hb
          · exact ⟨(i, info), List.mem_cons_self _ _, by rw [ht, hb]⟩
          · rcases ih _ hr b hb with ⟨q, hq, hq2⟩
            exact ⟨q, List.mem_cons_of_mem _ hq, hq2⟩

/-- On success, the set loop returns one layout and one type map per
index, each the result of `buildSet` at that index. -/
theorem buildSets_ok (refl : StageDescriptorSetLayouts) (idxs : List Nat)
    (ls : List DescriptorSetLayout) (ms : List (List (Nat × DescriptorType)))
    (h : buildSets refl idxs = Except.ok (ls, ms)) :
    ls.length = idxs.length ∧ ms.length = idxs.length ∧
    ∀ j (hj : j < idxs.length) (hl : j < ls.length) (hm : j < ms.length),
      buildSet refl (idxs.get ⟨j, hj⟩) = Except.ok (ls.get ⟨j, hl⟩, ms.get ⟨j, hm⟩) := by
  induction idxs generalizing ls ms with
  | nil =>
      simp only [buildSets] at h
      injection h with h
      rw [Prod.mk.injEq] at h
      obtain ⟨h1, h2⟩ := h
      subst h1
      subst h2
      exact ⟨rfl, rfl, fun j hj => absurd hj (Nat.not_lt_zero j)⟩
  | cons i rest ih =>
      simp only [buildSets] at h
      cases hs : buildSet refl i <;> rw [hs] at h
      · cases h
      · cases hr : buildSets refl rest <;> rw [hr] at h
        · cases h
        · rename_i lm lsms
          rcases lsms with ⟨ls1, ms1⟩
          injection h with h
          rw [Prod.mk.injEq] at h
          obtain ⟨h1, h2⟩ := h
          subst h1
          subst h2
          obtain ⟨hl1, hm1, hget⟩ := ih ls1 ms1 hr
          refine ⟨by simp [hl1], by simp [hm1], ?_⟩
          intro j hj hl hm
          cases j with
          | zero => simpa using hs
          | succ j2 =>
              simp only [List.get_cons_succ]
              exact hget j2 (Nat.lt_of_succ_lt_succ hj)
                (Nat.lt_of_succ_lt_succ hl) (Nat.lt_of_succ_lt_succ hm)

/-- Every layout the set loop produces is a `buildSet` result. -/
theorem buildSets_mem (refl : StageDescriptorSetLayouts) (idxs : List Nat)
    (ls : List DescriptorSetLayout) (ms : List (List (Nat × DescriptorType)))
    (h : buildSets refl idxs = Except.ok (ls, ms)) :
    ∀ l ∈ ls, ∃ i m, buildSet refl i = Except.ok (l, m) := by
  induction idxs generalizing ls ms with
  | nil =>
      simp only [buildSets] at h
      injection h with h
      rw [Prod.mk.injEq] at h
      obtain ⟨h1, _⟩ := h
      subst h1
      intro l hl
      cases hl
  | cons i rest ih =>
      simp only [buildSets] at h
      cases hs : buildSet refl i <;> rw [hs] at h
      · cases h
      · cases hr : buildSets refl rest <;> rw [hr] at h
        · cases h
        · rename_i lm lsms
          rcases lsms with ⟨ls1, ms1⟩
          injection h with h
          rw [Prod.mk.injEq] at h
          obtain ⟨h1, _⟩ := h
          subst h1
          intro l hl
          rcases List.mem_cons.mp hl with hl | hl
          · exact ⟨i, lm.2, by rw [hs, hl]⟩
          · exact ih ls1 ms1 hr l hl

/-- C9: every binding assembled by the layout builder, whatever its
reflected kind, has descriptor count exactly 1 and the binding flag
`PARTIALLY_BOUND` (one flag per binding). -/
theorem binding_count_one_partially_bound (refl : StageDescriptorSetLayouts)
    (out : List DescriptorSetLayout × List (List (Nat × DescriptorType)))
    (h : create_descriptor_set_layouts refl = Except.ok out) :
    ∀ layout ∈ out.1,
      layout.binding_flags.length = layout.bindings.length
      ∧ (∀ b ∈ layout.bindings, b.descriptor_count = 1)
      ∧ (∀ f ∈ layout.binding_flags, f = DescriptorBindingFlags.PARTIALLY_BOUND) := by
  intro layout hmem
  rcases out with ⟨ls, ms⟩
  rcases buildSets_mem refl _ ls ms h layout hmem with ⟨i, m, hi⟩
  simp only [buildSet] at hi
  cases hlook : refl.lookup i <;> simp only [hlook] at hi
  · injection hi with hi
    rw [Prod.mk.injEq] at hi
    obtain ⟨h1, _⟩ := hi
    subst h1
    exact ⟨rfl, fun b hb => absurd hb (List.not_mem_nil b), fun f hf => absurd hf (List.not_mem_nil f)⟩
  · rename_i set
    cases hb : buildBindings set <;> simp only [hb] at hi
    · cases hi
    · rename_i bs
      injection hi with hi
      rw [Prod.mk.injEq] at hi
      obtain ⟨h1, _⟩ := hi
      subst h1
      refine ⟨by simp [buildBindings_ok_length set bs hb], ?_, ?_⟩
      · intro b hbmem
        rcases buildBindings_mem set bs hb b hbmem with ⟨p, _, hp⟩
        exact (translateBinding_ok_shape p.1 p.2 b hp).1
      · intro f hf
        exact List.eq_of_mem_replicate hf

/-- Witness for C9 at a concrete reflected shader with one storage
buffer and one sampler. -/
theorem binding_count_one_partially_bound_witness :
    (⟨false, [⟨0, 1, DescriptorType.STORAGE_BUFFER, ShaderStageFlags.ALL, []⟩],
        [DescriptorBindingFlags.PARTIALLY_BOUND]⟩ :
      DescriptorSetLayout).binding_flags.length
      = (⟨false, [⟨0, 1, DescriptorType.STORAGE_BUFFER, ShaderStageFlags.ALL, []⟩],
          [DescriptorBindingFlags.PARTIALLY_BOUND]⟩ :
        DescriptorSetLayout).bindings.length
    ∧ (∀ b ∈ (⟨false, [⟨0, 1, DescriptorType.STORAGE_BUFFER, ShaderStageFlags.ALL, []⟩],
          [DescriptorBindingFlags.PARTIALLY_BOUND]⟩ :
        DescriptorSetLayout).bindings, b.descriptor_count = 1)
    ∧ (∀ f ∈ (⟨false, [⟨0, 1, DescriptorType.STORAGE_BUFFER, ShaderStageFlags.ALL, []⟩],
          [DescriptorBindingFlags.PARTIALLY_BOUND]⟩ :
        DescriptorSetLayout).binding_flags,
        f = DescriptorBindingFlags.PARTIALLY_BOUND) :=
  binding_count_one_partially_bound
    [(0, [(0, ⟨ReflDescriptorType.STORAGE_BUFFER, ['a']⟩)])]
    ([⟨false, [⟨0, 1, DescriptorType.STORAGE_BUFFER, ShaderStageFlags.ALL, []⟩],
        [DescriptorBindingFlags.PARTIALLY_BOUND]⟩],
      [[(0, DescriptorType.STORAGE_BUFFER)]])
    rfl
    ⟨false, [⟨0, 1, DescriptorType.STORAGE_BUFFER, ShaderStageFlags.ALL, []⟩],
      [DescriptorBindingFlags.PARTIALLY_BOUND]⟩
    (List.mem_cons_self _ _)

/-- Taking the maximum of the successors of a nonempty list is the
successor of the maximum. -/
theorem foldr_max_map_succ (l : List Nat) (h : l ≠ []) :
    (l.map (fun k => k + 1)).foldr max 0 = (l.foldr max 0) + 1 := by
  induction l with
  | nil => cases h rfl
  | cons a t ih =>
      cases t with
      | nil => simp
      | cons b t2 =>
          simp only [List.map_cons, List.foldr_cons] at ih ⊢
          rw [ih (by simp), Nat.succ_max_succ]

/-- C2: the builder computes `maxSet` as one plus the largest reflected
set index (`0` for an empty reflection), its two outputs have exactly
`maxSet` entries each, aligned with set numbers `0..maxSet-1`, and a
set index without reflected bindings yields the default (empty) layout
and an empty type map at its position. -/
theorem layout_builder_shape (refl : StageDescriptorSetLayouts)
    (out : List DescriptorSetLayout × List (List (Nat × DescriptorType)))
    (h : create_descriptor_set_layouts refl = Except.ok out) :
    (setCount refl = if refl = [] then 0 else ((refl.map Prod.fst).foldr max 0) + 1)
    ∧ out.1.length = setCount refl
    ∧ out.2.length = setCount refl
    ∧ (∀ i (h1 : i < out.1.length) (h2 : i < out.2.length),
        refl.lookup i = none →
          out.1.get ⟨i, h1⟩ = defaultSetLayout ∧ out.2.get ⟨i, h2⟩ = []) := by
  rcases out with ⟨ls, ms⟩
  obtain ⟨hl, hm, hget⟩ := buildSets_ok refl _ ls ms h
  rw [List.length_range] at hl hm
  refine ⟨?_, hl, hm, ?_⟩
  · by_cases he : refl = []
    · subst he
      simp [setCount]
    · rw [if_neg he]
      show (refl.map (fun p => p.1 + 1)).foldr max 0 = _
      have hmap : refl.map (fun p => p.1 + 1)
          = (refl.map Prod.fst).map (fun k => k + 1) := by
        rw [List.map_map]
        rfl
      rw [hmap, foldr_max_map_succ _ (by simp [he])]
  · intro i h1 h2 hnone
    have hj : i < (List.range (setCount refl)).length := by
      rw [List.length_range]
      rw [hl] at h1
      exact h1
    have hbs := hget i hj h1 h2
    rw [List.get_range] at hbs
    simp only [buildSet, hnone] at hbs
    injection hbs with hbs
    rw [Prod.mk.injEq] at hbs
    exact ⟨hbs.1.symm, hbs.2.symm⟩

/-- Witness for C2 on `reflExample` (highest set index 2, so three
slots, the first two empty placeholders). -/
theorem layout_builder_shape_witness :
    (setCount reflExample = if reflExample = [] then 0
        else ((reflExample.map Prod.fst).foldr max 0) + 1)
    ∧ outExample.1.length = setCount reflExample
    ∧ outExample.2.length = setCount reflExample
    ∧ (∀ i (h1 : i < outExample.1.length) (h2 : i < outExample.2.length),
        reflExample.lookup i = none →
          outExample.1.get ⟨i, h1⟩ = defaultSetLayout
          ∧ outExample.2.get ⟨i, h2⟩ = []) :=
  layout_builder_shape reflExample outExample rfl

/-- Stripping the sampler tag succeeds exactly on names that are the
tag followed by the remainder. -/
theorem stripSamplerTag_eq_some (name spec : List Char) :
    stripSamplerTag name = some spec ↔ name = samplerTag ++ spec := by
  constructor
  · intro h
    simp only [stripSamplerTag] at h
    split_ifs at h with ht
    injection h with h
    subst h
    conv_lhs => rw [← List.take_append_drop 8 name]
    rw [ht]
  · rintro rfl
    have ht : (samplerTag ++ spec).take 8 = samplerTag := by
      rw [show (8 : Nat) = samplerTag.length from rfl]
      exact List.take_left samplerTag spec
    have hd : (samplerTag ++ spec).drop 8 = spec := by
      rw [show (8 : Nat) = samplerTag.length from rfl]
      exact List.drop_left samplerTag spec
    simp only [stripSamplerTag, ht, hd, if_pos]

/-- The filter code parses exactly to the character of the grammar. -/
theorem parseTexelFilter_iff (c : Char) (f : Filter) :
    parseTexelFilter c = some f ↔ c = filterChar f := by
  constructor
  · intro h
    simp only [parseTexelFilter] at h
    split_ifs at h with h1 h2 <;> injection h with h <;> subst h
    · exact h1
    · exact h2
  · rintro rfl
    cases f <;> rfl

/-- The mipmap code parses exactly to the character of the grammar. -/
theorem parseMipmapMode_iff (c : Char) (m : SamplerMipmapMode) :
    parseMipmapMode c = some m ↔ c = mipmapChar m := by
  constructor
  · intro h
    simp only [parseMipmapMode] at h
    split_ifs at h with h1 h2 <;> injection h with h <;> subst h
    · exact h1
    · exact h2
  · rintro rfl
    cases m <;> rfl

/-- The address code parses exactly to the characters of the grammar. -/
theorem parseAddressModes_iff (spec : List Char) (am : SamplerAddressMode) :
    parseAddressModes spec = some am ↔ spec = addressChars am := by
  constructor
  · intro h
    simp only [parseAddressModes] at h
    split_ifs at h with h1 h2 h3 h4 <;> injection h with h <;> subst h
    · exact h1
    · exact h2
    · exact h3
    · exact h4
  · rintro rfl
    cases am <;> rfl

/-- The sampler-name parse succeeds exactly on names generated by the
grammar `sampler_<filter><mipmap><address>`, producing its components. -/
theorem parseSamplerName_iff (name : List Char) (d : SamplerDesc) :
    parseSamplerName name = some d ↔ name = samplerNameOf d := by
  constructor
  · intro h
    simp only [parseSamplerName] at h
    split at h
    · rename_i f m rest heq
      cases htf : parseTexelFilter f <;> rw [htf] at h
      · cases h
      · rename_i tf
        cases hmo : parseMipmapMode m <;> rw [hmo] at h
        · cases h
        · rename_i mm
          cases ham : parseAddressModes rest <;> rw [ham] at h
          · cases h
          · rename_i am
            injection h with h
            subst h
            rw [(stripSamplerTag_eq_some name (f :: m :: rest)).mp heq]
            rw [samplerNameOf]
            rw [(parseTexelFilter_iff f tf).mp htf,
              (parseMipmapMode_iff m mm).mp hmo,
              (parseAddressModes_iff rest am).mp ham]
    · cases h
  · rintro rfl
    rcases d with ⟨tf, mm, am⟩
    cases tf <;> cases mm <;> cases am <;> decide

/-- C4: reflected sampler names are read by the grammar
`sampler_<filter><mipmap><address>` (filter `n|l`, mipmap `n|l`,
address `r|mr|c|cb`): the parse succeeds exactly on grammar-conforming
names with the encoded components, `sampler_nlc` yields nearest filter,
linear mipmap and clamp-to-edge address, and a sampler binding whose
name fails the grammar (such as `sampler_lrX`) fails with
`MalformedSamplerSpec`. -/
theorem sampler_grammar_parse :
    (∀ (name : List Char) (d : SamplerDesc),
        parseSamplerName name = some d ↔ name = samplerNameOf d)
    ∧ parseSamplerName ['s', 'a', 'm', 'p', 'l', 'e', 'r', '_', 'n', 'l', 'c'] =
        some { texel_filter := Filter.NEAREST
               mipmap_mode := SamplerMipmapMode.LINEAR
               address_modes := SamplerAddressMode.CLAMP_TO_EDGE }
    ∧ (∀ (i : Nat) (info : DescriptorInfo), info.ty = ReflDescriptorType.SAMPLER →
        parseSamplerName info.name = none →
        translateBinding i info = Except.error ShaderError.MalformedSamplerSpec)
    ∧ translateBinding 0
        ⟨ReflDescriptorType.SAMPLER, ['s', 'a', 'm', 'p', 'l', 'e', 'r', '_', 'l', 'r', 'X']⟩ =
        Except.error ShaderError.MalformedSamplerSpec := by
  refine ⟨parseSamplerName_iff, by decide, ?_, rfl⟩
  intro i info hty hp
  rcases info with ⟨ty, name⟩
  cases hty
  simp only [translateBinding, hp]

/-- Witness for C4's failure branch at a concrete malformed name. -/
theorem sampler_grammar_parse_witness :
    translateBinding 3 ⟨ReflDescriptorType.SAMPLER, ['x', 'y']⟩ =
      Except.error ShaderError.MalformedSamplerSpec :=
  sampler_grammar_parse.2.2.1 3 ⟨ReflDescriptorType.SAMPLER, ['x', 'y']⟩ rfl rfl

/-- Unfolding `tyTotal` over a cons cell. -/
theorem tyTotal_cons (x : DescriptorPoolSize) (l : List DescriptorPoolSize)
    (ty : DescriptorType) :
    tyTotal (x :: l) ty
      = (if x.ty = ty then x.descriptor_count else 0) + tyTotal l ty := by
  simp only [tyTotal, List.filter_cons]
  by_cases h : x.ty = ty <;> simp [h]

/-- A type with no entry contributes a zero total. -/
theorem tyTotal_eq_zero (sizes : List DescriptorPoolSize) (ty : DescriptorType)
    (h : ty ∉ sizes.map DescriptorPoolSize.ty) : tyTotal sizes ty = 0 := by
  induction sizes with
  | nil => rfl
  | cons s rest ih =>
      rw [tyTotal_cons]
      have h1 : s.ty ≠ ty := fun he => h (by simp [← he])
      rw [if_neg h1, ih (fun hm => h (by simp [hm]))]

/-- In a deduplicated pool-size list, each entry's count is the whole
total for its type. -/
theorem tyTotal_of_mem (sizes : List DescriptorPoolSize) (s : DescriptorPoolSize)
    (hnd : (sizes.map DescriptorPoolSize.ty).Nodup) (hs : s ∈ sizes) :
    tyTotal sizes s.ty = s.descriptor_count := by
  induction sizes with
  | nil => cases hs
  | cons a rest ih =>
      rw [List.map_cons, List.nodup_cons] at hnd
      rcases List.mem_cons.mp hs with h | h
      · subst h
        rw [tyTotal_cons, if_pos rfl, tyTotal_eq_zero rest s.ty hnd.1]
        omega
      · have hne : a.ty ≠ s.ty := by
          intro he
          exact hnd.1 (he ▸ List.mem_map_of_mem DescriptorPoolSize.ty h)
        rw [tyTotal_cons, if_neg hne, ih hnd.2 h]
        omega

/-- Inserting one occurrence bumps exactly its type's total by one. -/
theorem addPoolEntry_tyTotal (sizes : List DescriptorPoolSize) (t ty : DescriptorType) :
    tyTotal (addPoolEntry sizes t) ty
      = tyTotal sizes ty + (if t = ty then 1 else 0) := by
  induction sizes with
  | nil => by_cases h : t = ty <;> simp [addPoolEntry, tyTotal, h]
  | cons s rest ih =>
      by_cases h1 : s.ty = t
      · subst h1
        simp only [addPoolEntry, eq_self_iff_true, if_true]
        rw [tyTotal_cons, tyTotal_cons]
        by_cases h2 : s.ty = ty <;> simp [h2] <;> omega
      · simp only [addPoolEntry, if_neg h1]
        rw [tyTotal_cons, tyTotal_cons, ih]
        omega

/-- The types of the list after an insertion: unchanged when the type
was present, the type appended otherwise. -/
theorem addPoolEntry_types (sizes : List DescriptorPoolSize) (t : DescriptorType) :
    (addPoolEntry sizes t).map DescriptorPoolSize.ty =
      if t ∈ sizes.map DescriptorPoolSize.ty then sizes.map DescriptorPoolSize.ty
      else sizes.map DescriptorPoolSize.ty ++ [t] := by
  induction sizes with
  | nil => simp [addPoolEntry]
  | cons s rest ih =>
      by_cases h1 : s.ty = t
      · simp [addPoolEntry, h1]
      · simp only [addPoolEntry, if_neg h1, List.map_cons, ih]
        by_cases h2 : t ∈ rest.map DescriptorPoolSize.ty
        · rw [if_pos h2, if_pos (by simp [h2])]
        · rw [if_neg h2, if_neg (by
            simp only [List.mem_cons]
            rintro (he | hm)
            · exact h1 he.symm
            · exact h2 hm)]
          simp

/-- Membership in the types after an insertion. -/
theorem addPoolEntry_mem (sizes : List DescriptorPoolSize) (t x : DescriptorType) :
    x ∈ (addPoolEntry sizes t).map DescriptorPoolSize.ty
      ↔ x ∈ sizes.map DescriptorPoolSize.ty ∨ x = t := by
  rw [addPoolEntry_types]
  by_cases h : t ∈ sizes.map DescriptorPoolSize.ty
  · rw [if_pos h]
    constructor
    · exact Or.inl
    · rintro (hx | hx)
      · exact hx
      · exact hx ▸ h
  · rw [if_neg h]
    simp

/-- Folding occurrences into the accumulator adds each type's number of
occurrences to its total. -/
theorem foldl_addPoolEntry_tyTotal (ts : List DescriptorType)
    (acc : List DescriptorPoolSize) (ty : DescriptorType) :
    tyTotal (ts.foldl addPoolEntry acc) ty
      = tyTotal acc ty + (ts.filter (fun t => decide (t = ty))).length := by
  induction ts generalizing acc with
  | nil => simp
  | cons t ts ih =>
      rw [List.foldl_cons, ih, addPoolEntry_tyTotal, List.filter_cons]
      by_cases h : t = ty <;> simp [h] <;> omega

/-- Membership in the pool types after folding occurrences. -/
theorem foldl_addPoolEntry_mem (ts : List DescriptorType)
    (acc : List DescriptorPoolSize) (x : DescriptorType) :
    x ∈ (ts.foldl addPoolEntry acc).map DescriptorPoolSize.ty
      ↔ x ∈ acc.map DescriptorPoolSize.ty ∨ x ∈ ts := by
  induction ts generalizing acc with
  | nil => simp
  | cons t ts ih =>
      rw [List.foldl_cons, ih, addPoolEntry_mem]
      simp only [List.mem_cons]
      tauto

/-- Folding occurrences preserves deduplication of the pool types. -/
theorem foldl_addPoolEntry_nodup (ts : List DescriptorType)
    (acc : List DescriptorPoolSize) (h : (acc.map DescriptorPoolSize.ty).Nodup) :
    ((ts.foldl addPoolEntry acc).map DescriptorPoolSize.ty).Nodup := by
  induction ts generalizing acc with
  | nil => exact h
  | cons t ts ih =>
      rw [List.foldl_cons]
      apply ih
      rw [addPoolEntry_types]
      by_cases hm : t ∈ acc.map DescriptorPoolSize.ty
      · rw [if_pos hm]
        exact h
      · rw [if_neg hm]
        simp [List.nodup_append, h, hm]

/-- The nested aggregation loop equals a single fold over all
occurrences in iteration order. -/
theorem computePoolSizes_eq_foldl (info : List (List (Nat × DescriptorType))) :
    computePoolSizes info = (allTypes info).foldl addPoolEntry [] := by
  suffices h : ∀ acc,
      info.foldl (fun acc bindings => bindings.foldl (fun a p => addPoolEntry a p.2) acc) acc
        = (allTypes info).foldl addPoolEntry acc from h []
  induction info with
  | nil => intro acc; rfl
  | cons m rest ih =>
      intro acc
      have hflat : allTypes (m :: rest) = m.map Prod.snd ++ allTypes rest := by
        simp [allTypes]
      rw [List.foldl_cons, ih, hflat, List.foldl_append, List.foldl_map]

/-- C6: the pool-size request aggregated by the set allocator has one
entry per descriptor type occurring in the type maps, counting its
occurrences across all maps, and no entry for any other type; the pool
is created with `max_sets = 1`, and one set is allocated per supplied
layout. -/
theorem descriptor_pool_sizing (set_layouts : List DescriptorSetLayout)
    (info : List (List (Nat × DescriptorType))) :
    ((create_descriptor_sets set_layouts info).1.pool_sizes.map
        DescriptorPoolSize.ty).Nodup
    ∧ (∀ s ∈ (create_descriptor_sets set_layouts info).1.pool_sizes,
        s.ty ∈ allTypes info ∧ s.descriptor_count = occCount s.ty info)
    ∧ (∀ ty ∈ allTypes info,
        ty ∈ (create_descriptor_sets set_layouts info).1.pool_sizes.map
          DescriptorPoolSize.ty)
    ∧ (create_descriptor_sets set_layouts info).1.max_sets = 1
    ∧ (create_descriptor_sets set_layouts info).2
        = set_layouts.map (fun l => { layout := l }) := by
  have hpool : (create_descriptor_sets set_layouts info).1.pool_sizes
      = (allTypes info).foldl addPoolEntry [] := computePoolSizes_eq_foldl info
  have hnd : (((allTypes info).foldl addPoolEntry []).map DescriptorPoolSize.ty).Nodup :=
    foldl_addPoolEntry_nodup _ _ (by simp)
  refine ⟨hpool ▸ hnd, ?_, ?_, rfl, rfl⟩
  · intro s hs
    rw [hpool] at hs
    have hmem : s.ty ∈ ((allTypes info).foldl addPoolEntry []).map DescriptorPoolSize.ty :=
      List.mem_map_of_mem _ hs
    have h1 : s.ty ∈ allTypes info := by
      rcases (foldl_addPoolEntry_mem _ _ _).mp hmem with h | h
      · simp at h
      · exact h
    refine ⟨h1, ?_⟩
    have h2 := tyTotal_of_mem _ s hnd hs
    rw [foldl_addPoolEntry_tyTotal] at h2
    have h0 : tyTotal [] s.ty = 0 := rfl
    rw [h0, Nat.zero_add] at h2
    exact h2.symm
  · intro ty hty
    rw [hpool]
    exact (foldl_addPoolEntry_mem _ _ _).mpr (Or.inr hty)

/-- Witness for C6 on the spec's example: two uniform buffers and one
sampler across the maps give a pool entry `{uniformBuffer: 2}`. -/
theorem descriptor_pool_sizing_witness :
    (⟨DescriptorType.UNIFORM_BUFFER, 2⟩ : DescriptorPoolSize).ty
        ∈ allTypes [[(0, DescriptorType.UNIFORM_BUFFER), (1, DescriptorType.SAMPLER)],
          [(0, DescriptorType.UNIFORM_BUFFER)]]
    ∧ (⟨DescriptorType.UNIFORM_BUFFER, 2⟩ : DescriptorPoolSize).descriptor_count
        = occCount (⟨DescriptorType.UNIFORM_BUFFER, 2⟩ : DescriptorPoolSize).ty
          [[(0, DescriptorType.UNIFORM_BUFFER), (1, DescriptorType.SAMPLER)],
            [(0, DescriptorType.UNIFORM_BUFFER)]] :=
  (descriptor_pool_sizing []
    [[(0, DescriptorType.UNIFORM_BUFFER), (1, DescriptorType.SAMPLER)],
      [(0, DescriptorType.UNIFORM_BUFFER)]]).2.1
    ⟨DescriptorType.UNIFORM_BUFFER, 2⟩ (by decide)

end Someday

